import Mathlib

/-!
Verification of the OlxListingSync automation core against its source.

The corpus contains two revisions of `AutomationService` (server/automation.ts)
and two revisions of `ConnectivityTester` (server/connectivity-test.ts).  The
revision modelled here for the orchestrator is the one that is consistent with
shared/schema.ts and with the routes layer: it reads `automation.propertyCode`
and `automation.olxCode`, which are the fields that exist on the `automations`
table, and it carries the active-set guard at the top of `startAutomation`.
The other revision references `automation.univenCode` and `automation.brokerId`,
fields absent from the schema, so it cannot be the operative module.

For the UNIVEN connectivity test we model the session-detection revision of
`ConnectivityTester.testUnivenConnection` (the one carrying the `!-!`
response-code taxonomy), since that is where the response-code classification
lives.  Machine integers are modelled as `Nat`; JS `Date` values are reduced
to the information the claims need (a "was set" flag, or a `Nat` epoch).
`toLowerCase` is modelled with Lean's ASCII `String.toLower`; all classifier
pattern literals are ASCII-lowercase or compared verbatim, so the decision
structure is unaffected.
-/

namespace OlxSync

/-- Substring scan: does `pat` occur inside the character list?  Structural so
that the kernel can evaluate it on literals. -/
def containsAux (pat : List Char) : List Char → Bool
  | [] => pat.isEmpty
  | c :: cs => pat.isPrefixOf (c :: cs) || containsAux pat cs

/-- JS `String.prototype.includes`: substring containment. -/
def strContains (s pat : String) : Bool :=
  containsAux pat.toList s.toList

/-- ASCII lowercasing (JS `toLowerCase`; the pattern literals compared against
lowercased text are themselves lowercase, so ASCII suffices for the decision
structure). -/
def strToLower (s : String) : String :=
  String.mk (s.toList.map Char.toLower)

/-- Delete the first occurrence of `pat` (JS `replace(pat, "")` with a plain
string pattern replaces only the first occurrence). -/
def deleteFirst (pat : List Char) : List Char → List Char
  | [] => []
  | c :: cs =>
    if pat.isPrefixOf (c :: cs) then List.drop (pat.length - 1) cs
    else c :: deleteFirst pat cs

/-- Whitespace trim on both ends (JS `String.prototype.trim`). -/
def trimChars (l : List Char) : List Char :=
  ((l.dropWhile Char.isWhitespace).reverse.dropWhile Char.isWhitespace).reverse

/-- The characters before the first occurrence of `sep`: this is `parts[0]` of
JS `split(sep)` (the whole string when `sep` does not occur). -/
def headToken (sep : List Char) : List Char → List Char
  | [] => []
  | c :: cs => if sep.isPrefixOf (c :: cs) then [] else c :: headToken sep cs

/-- `ConnectivityTestResult` from server/connectivity-test.ts.  The `timestamp`
field (always `new Date()`) is omitted: it carries no decision content. -/
structure ConnResult where
  success : Bool
  message : String
  platform : String
  recommendation : Option String := none
  requiresCredentials : Option Bool := none
deriving Repr, DecidableEq

/-- The UNIVEN response-code taxonomy: classification of the raw body of the
login POST (`verifica_login.php`), transcribed from the chain of branches in
`ConnectivityTester.testUnivenConnection` (session-detection revision).  The
code strips the first BOM occurrence, trims, splits on the `!-!` delimiter and
takes the leading token, then walks a fixed chain of tests.  The JS regex test
`responseCode.match(/^[0-9]+$/)` is truthy exactly when the token is nonempty
and all digits. -/
def classifyUnivenResponse (rawText : String) : ConnResult :=
  let responseText := deleteFirst "ï»¿".toList rawText.toList
  let trimmedResponse := trimChars responseText
  let responseCode := String.mk (headToken "!-!".toList trimmedResponse)
  if responseCode == "1" then
    { success := false
      message := "Senha incorreta para UNIVEN. Verifique sua senha e tente novamente."
      platform := "UNIVEN" }
  else if responseCode == "2" then
    { success := false
      message := "Dados incorretos para UNIVEN. Verifique seu email e senha."
      platform := "UNIVEN" }
  else if responseCode == "3" then
    { success := false
      message := "Número de acessos excedeu o contratado no UNIVEN."
      platform := "UNIVEN" }
  else if responseCode == "4" then
    { success := false
      message := "Cadastro da imobiliária está desativado no UNIVEN."
      platform := "UNIVEN" }
  else if responseCode == "-1" then
    { success := false
      message := "Sistema UNIVEN em manutenção. Tente novamente em alguns minutos."
      platform := "UNIVEN" }
  else if strContains responseCode "eval(" || strContains responseCode "window.open" then
    { success := true
      message := "Login UNIVEN realizado com sucesso! Credenciais válidas e sistema retornou redirecionamento."
      platform := "UNIVEN" }
  else if responseCode == "" || responseCode == "erro" then
    { success := false
      message := "Erro no sistema UNIVEN ou credenciais inválidas."
      platform := "UNIVEN" }
  else if String.mk (trimChars responseCode.toList) == "0" then
    { success := true
      message := "Login UNIVEN realizado com sucesso! Credenciais válidas (código 0)."
      platform := "UNIVEN" }
  else if strContains responseCode "window.open" || strContains responseCode "location.href"
      || strContains responseCode "eval(" || strContains responseCode "redirect" then
    { success := true
      message := "Login UNIVEN realizado com sucesso! Sistema retornou JavaScript de redirecionamento."
      platform := "UNIVEN" }
  else if strContains responseCode "parent." || strContains responseCode "top."
      || strContains responseCode "window." || strContains responseCode "document." then
    { success := true
      message := "Login UNIVEN realizado com sucesso! Sistema retornou comandos JavaScript válidos."
      platform := "UNIVEN" }
  else if decide (30 < responseCode.length)
      && !(decide (responseCode ≠ "") && responseCode.toList.all Char.isDigit) then
    { success := true
      message := "Login UNIVEN aparenta ter sido bem-sucedido. Resposta JavaScript complexa do servidor."
      platform := "UNIVEN" }
  else
    { success := false
      message := "Resposta não reconhecida do UNIVEN. Sistema pode estar funcionando de forma diferente. Código: \"" ++ String.mk (responseCode.toList.take 30) ++ "...\""
      platform := "UNIVEN"
      recommendation := some "manual_verification" }

/-- The session indicators scanned over the rendered page in PASSO 1 of the
session-detection `testUnivenConnection`. -/
def sessionIndicators : List String :=
  ["sair", "logout", "Meus Imóveis", "Área do Usuário", "dashboard",
   "menu-usuario", "Bem-vindo", "Olá,"]

/-- Environment abstracting the browser interactions of the session-detection
`testUnivenConnection`: launch/navigation outcome, observed URL and page
content, and the body the login POST would have returned (recorded so the
dependence of the result on it can be stated).  `gotoStatus = none` models the
navigation throwing (caught as `browserError`); `pageContent = none` models
`waitForSelector`/`content()` throwing (caught as `elementError`). -/
structure UnivenProbeEnv where
  launchFails : Bool
  gotoStatus : Option Nat
  pageUrl : String
  pageContent : Option String
  postResponseBody : String
deriving Repr, DecidableEq

/-- The early, unconditional "no active session" return of the session-detection
`testUnivenConnection` (PASSO 2). -/
def noSessionResult : ConnResult :=
  { success := false
    message := "Nenhuma sessão ativa no UNIVEN. Recomendamos fazer login manual no navegador primeiro."
    platform := "UNIVEN"
    requiresCredentials := some false
    recommendation := some "manual_browser_login" }

/-- The "session active" success return of PASSO 1. -/
def sessionActiveResult : ConnResult :=
  { success := true
    message := "UNIVEN conectado! Sessão ativa detectada no navegador."
    platform := "UNIVEN"
    recommendation := some "browser_session_active" }

/-- The "site inaccessible" return when `page.goto` yields a non-200 status. -/
def siteInaccessibleResult (status : Nat) : ConnResult :=
  { success := false
    message := "Site UNIVEN inacessível (Status: " ++ toString status ++ "). Verifique sua conexão."
    platform := "UNIVEN" }

/-- `ConnectivityTester.testUnivenConnection` (session-detection revision),
up to its unconditional return.  Everything after that return — including the
login POST and the response-code classification — is unreachable, which this
embedding makes explicit by never consulting `env.postResponseBody`. -/
def testUnivenConnection (env : UnivenProbeEnv) : ConnResult :=
  if env.launchFails then noSessionResult
  else
    match env.gotoStatus with
    | none => noSessionResult
    | some status =>
      if status != 200 then siteInaccessibleResult status
      else
        let currentUrl := env.pageUrl
        if strContains currentUrl "/dashboard" || strContains currentUrl "/imovel/"
            || strContains currentUrl "/principal" || strContains currentUrl "/home"
            || !(strContains currentUrl "/login") then
          match env.pageContent with
          | some pageContent =>
            if sessionIndicators.any
                (fun ind => strContains (strToLower pageContent) (strToLower ind)) then
              sessionActiveResult
            else noSessionResult
          | none => noSessionResult
        else noSessionResult

/-! ## The orchestrator: `AutomationService` (schema-consistent revision)

State of the `MemStorage` collaborator, restricted to the tables the
orchestrator touches, plus the data model from shared/schema.ts. -/

/-- `PropertyData` from shared/schema.ts. -/
structure PropertyData where
  code : String
  type : String
  price : Nat
  description : String
  address : String
  area : Nat
  bedrooms : Nat
  bathrooms : Nat
  photos : List String
  features : List String
deriving Repr, DecidableEq

/-- The values drawn from `Math.random()` inside `extractPropertyData`
(`price = floor(rand*2000000)+300000`, `area = floor(rand*200)+50`,
`bedrooms = floor(rand*4)+1`, `bathrooms = floor(rand*3)+1`); the draws are
abstracted as environment inputs. -/
structure RandomData where
  price : Nat
  area : Nat
  bedrooms : Nat
  bathrooms : Nat
deriving Repr, DecidableEq

/-- A row of the `automations` table.  `completedAt` (a nullable timestamp set
to `new Date()` on completion) is modelled as a was-set flag. -/
structure Automation where
  id : Nat
  propertyCode : String
  olxCode : String
  status : String
  progress : Nat
  currentStep : Option String
  videoUrl : Option String
  tourUrl : Option String
  propertyData : Option PropertyData
  errorMessage : Option String
  completedAt : Bool
deriving Repr, DecidableEq

/-- A partial update passed to `storage.updateAutomation` (TS
`Partial<Automation>` spread over the existing row); only the fields the
orchestrator ever writes are carried. -/
structure AutomationUpdate where
  status : Option String := none
  progress : Option Nat := none
  currentStep : Option String := none
  propertyData : Option PropertyData := none
  errorMessage : Option String := none
  completedAt : Bool := false
deriving Repr, DecidableEq

/-- JS object spread `{...automation, ...updates}`. -/
def applyUpdate (a : Automation) (u : AutomationUpdate) : Automation :=
  { a with
    status := u.status.getD a.status
    progress := u.progress.getD a.progress
    currentStep := match u.currentStep with
      | some s => some s
      | none => a.currentStep
    propertyData := match u.propertyData with
      | some d => some d
      | none => a.propertyData
    errorMessage := match u.errorMessage with
      | some m => some m
      | none => a.errorMessage
    completedAt := if u.completedAt then true else a.completedAt }

/-- A row of the `olx_codes` table. -/
structure OlxCode where
  id : Nat
  code : String
  brokerId : Option Nat
  isUsed : Bool
  isHighlighted : Bool
  isActive : Bool
  currentAutomationId : Option Nat
  univenCode : Option String
deriving Repr, DecidableEq

/-- A row of the `system_logs` table as written by `createSystemLog`
(id/timestamp counters omitted; `metadata` omitted — always derived from the
message's context and never read back by the core). -/
structure LogRec where
  level : String
  message : String
  automationId : Option Nat
deriving Repr, DecidableEq

/-- A settings value (`jsonb`): the orchestrator only ever coerces values to
booleans via JS truthiness. -/
inductive SVal where
  | b : Bool → SVal
  | s : String → SVal
  | n : Int → SVal
deriving Repr, DecidableEq

/-- JS truthiness of a settings value. -/
def SVal.truthy : SVal → Bool
  | .b x => x
  | .s x => x != ""
  | .n x => x != 0

/-- A row of the `settings` table. -/
structure Setting where
  key : String
  value : SVal
deriving Repr, DecidableEq

/-- The `MemStorage` tables the orchestrator reads or writes. -/
structure StorageState where
  automations : List Automation
  olxCodes : List OlxCode
  logs : List LogRec
  settings : List Setting
deriving Repr, DecidableEq

/-- `MemStorage.getAutomation`. -/
def getAutomation (st : StorageState) (id : Nat) : Option Automation :=
  st.automations.find? (fun a => a.id == id)

/-- `MemStorage.updateAutomation` (no-op when the id is absent). -/
def updateAutomationS (st : StorageState) (id : Nat) (u : AutomationUpdate) :
    StorageState :=
  { st with
    automations := st.automations.map
      (fun a => if a.id == id then applyUpdate a u else a) }

/-- `MemStorage.getOlxCodeByCode`. -/
def getOlxCodeByCode (st : StorageState) (code : String) : Option OlxCode :=
  st.olxCodes.find? (fun c => c.code == code)

/-- `MemStorage.getAvailableOlxCodes`: active, unused codes of the broker. -/
def getAvailableOlxCodes (st : StorageState) (brokerId : Nat) : List OlxCode :=
  st.olxCodes.filter
    (fun c => c.brokerId == some brokerId && c.isActive && !c.isUsed)

/-- `settings.find(s => s.key === k)` as used by the service. -/
def findSetting (st : StorageState) (k : String) : Option Setting :=
  st.settings.find? (fun s => s.key == k)

/-- `(setting?.value as boolean)` under JS truthiness (`undefined` is falsy). -/
def settingTruthy : Option Setting → Bool
  | none => false
  | some s => s.value.truthy

/-- JS truthiness of a nullable string field such as `automation.videoUrl`. -/
def jsTruthy : Option String → Bool
  | none => false
  | some s => s != ""

/-- One observable action of a run: a `createSystemLog` call or an
`updateAutomation` call.  (Each is also broadcast over the socket; the
broadcast carries the same data and is not persisted, so it is identified
with the trace entry.) -/
inductive Event where
  | log : String → String → Option Nat → Event
  | update : Nat → AutomationUpdate → Event
deriving Repr, DecidableEq

/-- Running storage-state plus the trace of actions so far. -/
structure M where
  st : StorageState
  tr : List Event
deriving Repr, DecidableEq

/-- `this.log(level, message, automationId)`: persist a system log and
broadcast it. -/
def M.logA (m : M) (level message : String) (aid : Option Nat) : M :=
  { st := { m.st with logs := m.st.logs ++ [⟨level, message, aid⟩] }
    tr := m.tr ++ [.log level message aid] }

/-- A `storage.updateAutomation` call. -/
def M.upd (m : M) (id : Nat) (u : AutomationUpdate) : M :=
  { st := updateAutomationS m.st id u
    tr := m.tr ++ [.update id u] }

/-- `this.updateProgress(automationId, step, progress, message)`: persist
`currentStep`+`progress`, log the message, broadcast. -/
def M.updateProgress (m : M) (id : Nat) (step : String) (progress : Nat)
    (message : String) : M :=
  (m.upd id { currentStep := some step, progress := some progress }).logA
    "info" message (some id)

/-- A conditional log (the `if (automation.videoUrl)`-style branches). -/
def M.logIf (m : M) (b : Bool) (level message : String) (aid : Option Nat) : M :=
  if b then m.logA level message aid else m

/-- Environment for one run: the `Math.random` draws, the wall clock read by
`Date.now()`, and the points where the browser/filesystem interactions can
throw.  `extractFail`/`createFail` carry the message of an exception raised
inside `extractPropertyData` / `createOLXListing` (propagated: those bodies
have only `finally`, no `catch`); `photosFail` carries one raised inside
`downloadPhotos`' own `try` (caught there, degrading to the original URLs). -/
structure RunEnv where
  rnd : RandomData
  now : Nat
  extractFail : Option String
  photosFail : Option String
  createFail : Option String
deriving Repr, DecidableEq

/-- The simulated scrape result built by `extractPropertyData`. -/
def extractPropertyData (propertyCode : String) (rnd : RandomData) :
    PropertyData :=
  { code := propertyCode
    type := if propertyCode.startsWith "AP" then "Apartamento"
            else if propertyCode.startsWith "CA" then "Casa" else "Apartamento"
    price := rnd.price
    description := "Excelente "
      ++ (if propertyCode.startsWith "AP" then "apartamento" else "casa")
      ++ " em ótima localização."
    address := "Rua Exemplo, 123 - Centro"
    area := rnd.area
    bedrooms := rnd.bedrooms
    bathrooms := rnd.bathrooms
    photos := ["https://example.com/photo1.jpg", "https://example.com/photo2.jpg",
               "https://example.com/photo3.jpg"]
    features := ["Garagem", "Área de lazer", "Portaria 24h"] }

/-- `downloadPhotos`: skipped (with a log) unless the `downloadPhotos` setting
is truthy; otherwise either the per-photo logs and a success log, or — if the
filesystem/download work throws — a warning log and a fallback to the original
URLs.  The returned paths are only handed to the listing simulation, which
ignores them, so only the log effects are modelled. -/
def downloadPhotosM (m : M) (id : Nat) (pc : String) (urls : List String)
    (env : RunEnv) : M :=
  if !(settingTruthy (findSetting m.st "downloadPhotos")) then
    m.logA "info" "Photo download disabled in settings" (some id)
  else
    match env.photosFail with
    | some e =>
      m.logA "warning" ("Failed to download photos: Error: " ++ e) (some id)
    | none =>
      ((List.range urls.length).foldl
        (fun m i =>
          m.logA "info"
            ("Downloaded photo " ++ toString (i + 1) ++ "/" ++ toString urls.length)
            (some id)) m).logA "success"
        ("Downloaded " ++ toString urls.length ++ " photos for " ++ pc) (some id)

/-- The body of `startAutomation`'s `try` block, returning the thrown message
(if any) alongside the mutated state and trace.  The step order, progress
percentages, log lines and the inlined bodies of `extractPropertyData` /
`downloadPhotos` / `createOLXListing` follow the source.  (`olxCode.name` in
the broker log renders as `undefined`: the `olx_codes` row has no `name`
field.) -/
def runSteps (id : Nat) (env : RunEnv) (m : M) : M × Option String :=
  match getAutomation m.st id with
  | none => (m, some ("Automation " ++ toString id ++ " not found"))
  | some automation =>
    let m := m.upd id { status := some "processing" }
    let m := m.logA "info"
      ("Starting automation for property " ++ automation.propertyCode) (some id)
    let m := m.updateProgress id "connecting_univen" 10
      "Connecting to UNIVEN system..."
    match env.extractFail with
    | some e => (m, some e)
    | none =>
      let pd := extractPropertyData automation.propertyCode env.rnd
      let m := m.logA "info"
        ("Navigating to UNIVEN for property " ++ automation.propertyCode) (some id)
      let m := m.logA "success"
        ("Property data extracted for " ++ automation.propertyCode) (some id)
      let m := m.updateProgress id "extracting_data" 30
        "Extracting property data..."
      let m := m.updateProgress id "downloading_photos" 50
        "Downloading property photos..."
      let m := downloadPhotosM m id automation.propertyCode pd.photos env
      let m := m.updateProgress id "connecting_olx" 70
        "Connecting to OLX Pro..."
      let m := m.updateProgress id "creating_listing" 85
        "Creating listing on OLX Pro..."
      let m := m.logA "info" "Navigating to OLX Pro" (some id)
      match getOlxCodeByCode m.st automation.olxCode with
      | none => (m, some ("OLX code " ++ automation.olxCode ++ " not found"))
      | some olxCode =>
        match env.createFail with
        | some e => (m, some e)
        | none =>
          let m := m.logA "info"
            ("Creating listing for broker undefined (" ++ olxCode.code ++ ")")
            (some id)
          let m := m.logA "info" "Filling property details..." (some id)
          let m := m.logA "info" "Uploading photos..." (some id)
          let m := m.logIf (jsTruthy automation.videoUrl) "info"
            "Adding video URL..." (some id)
          let m := m.logIf (jsTruthy automation.tourUrl) "info"
            "Adding virtual tour URL..." (some id)
          let m := m.logA "info" "Publishing listing..." (some id)
          let m := m.logA "success"
            ("Listing created successfully with ID: OLX" ++ toString env.now)
            (some id)
          let m := m.updateProgress id "finalizing" 100
            "Automation completed successfully!"
          let m := m.upd id
            { status := some "completed", progress := some 100,
              propertyData := some pd, completedAt := true }
          let m := m.logA "success"
            ("Automation completed successfully for property "
              ++ automation.propertyCode) (some id)
          (m, none)

/-- The outcome of one `startAutomation` call: active set, storage, trace. -/
structure SAOut where
  active : List Nat
  st : StorageState
  trace : List Event
deriving Repr, DecidableEq

/-- `AutomationService.startAutomation`: the already-running guard, the active
set bookkeeping, the `try` body, the `catch` (error log, `failed` update with
`error.message`; the JS template `Automation failed: ${error}` stringifies the
`Error` with its `Error: ` tag) and the `finally` removal. -/
def startAutomation (active : List Nat) (st : StorageState) (env : RunEnv)
    (id : Nat) : SAOut :=
  if active.contains id then
    let m := M.logA ⟨st, []⟩ "warning"
      ("Automation " ++ toString id ++ " is already running") (some id)
    ⟨active, m.st, m.tr⟩
  else
    let active1 := id :: active
    let r := runSteps id env ⟨st, []⟩
    let m := match r.2 with
      | none => r.1
      | some e =>
        ((r.1.logA "error" ("Automation failed: Error: " ++ e) (some id)).upd id
          { status := some "failed", errorMessage := some e })
    ⟨active1.filter (fun x => x != id), m.st, m.tr⟩

/-- The `(currentStep, progress)` pairs of the persisted step updates. -/
def stepUpdates (tr : List Event) : List (String × Nat) :=
  tr.filterMap (fun e =>
    match e with
    | .update _ u =>
      match u.currentStep, u.progress with
      | some s, some p => some (s, p)
      | _, _ => none
    | _ => none)

/-- The `progress` values of all persisted updates that carry one. -/
def progressUpdates (tr : List Event) : List Nat :=
  tr.filterMap (fun e =>
    match e with
    | .update _ u => u.progress
    | _ => none)

/-! Concrete fixtures used by witnesses and counterexamples. -/

/-- A pending job as created through `POST /api/automations`. -/
def wJob : Automation :=
  { id := 1, propertyCode := "AP0001", olxCode := "HA00011", status := "pending",
    progress := 0, currentStep := none, videoUrl := none, tourUrl := none,
    propertyData := none, errorMessage := none, completedAt := false }

/-- An unused active code of broker 1 (shape of the seeded codes). -/
def wCode : OlxCode :=
  { id := 1, code := "HA00011", brokerId := some 1, isUsed := false,
    isHighlighted := false, isActive := true, currentAutomationId := none,
    univenCode := none }

/-- A store holding the job and one available code, with empty settings (in
particular: no `univenUsername`/`univenPassword`/`olxEmail`/`olxPassword`). -/
def wSt : StorageState :=
  { automations := [wJob], olxCodes := [wCode], logs := [], settings := [] }

/-- A failure-free run environment. -/
def wEnv : RunEnv :=
  { rnd := ⟨350000, 85, 2, 1⟩, now := 0, extractFail := none,
    photosFail := none, createFail := none }

/-- A run environment whose extraction step throws `boom`. -/
def wEnvFail : RunEnv := { wEnv with extractFail := some "boom" }

/-- The job's row after a successful run: the cumulative effect of the
`processing` update, the six step updates and the final `completed` update. -/
def finalAuto (j : Automation) (pd : PropertyData) : Automation :=
  { j with
    status := "completed"
    progress := 100
    currentStep := some "finalizing"
    propertyData := some pd
    completedAt := true }

/-- `wCode` already consumed: broker 1 then has no available code, while
`getOlxCodeByCode` still finds the row. -/
def wUsedCode : OlxCode := { wCode with isUsed := true }

/-- A store whose only code for broker 1 is used (zero available codes). -/
def wStUsed : StorageState :=
  { automations := [wJob], olxCodes := [wUsedCode], logs := [], settings := [] }

/-! ## The browser-driven probes (PASSO 9 verdicts) -/

/-- The success-indicator list of the browser-probe `testUnivenConnection`
(the `AutomationService` file variant), computed over the post-submission URL,
page content and title. -/
def univenProbeSuccessIndicators (url content title : String) : List Bool :=
  [strContains url "dashboard",
   strContains url "home",
   strContains url "principal",
   strContains url "menu",
   strContains url "sistema",
   url != "https://univenweb.com.br/" && url != "https://univenweb.com.br/index.html",
   strContains (strToLower content) "logout",
   strContains (strToLower content) "sair",
   strContains (strToLower content) "bem-vindo",
   strContains (strToLower content) "dashboard",
   strContains (strToLower content) "menu principal",
   strContains (strToLower title) "sistema",
   strContains (strToLower title) "dashboard",
   strContains (strToLower title) "principal"]

/-- The error-indicator list of the browser-probe `testUnivenConnection`. -/
def univenProbeErrorIndicators (url content : String) : List Bool :=
  [strContains (strToLower content) "usuário inválido",
   strContains (strToLower content) "senha incorreta",
   strContains (strToLower content) "credenciais inválidas",
   strContains (strToLower content) "erro de login",
   strContains (strToLower content) "login inválido",
   strContains (strToLower content) "dados incorretos",
   strContains (strToLower content) "acesso negado",
   strContains (strToLower content) "invalid",
   strContains (strToLower content) "incorrect",
   strContains (strToLower content) "failed",
   url == "https://univenweb.com.br/",
   url == "https://univenweb.com.br/index.html"]

/-- `indicators.filter(indicator => indicator).length`. -/
def countTrue (l : List Bool) : Nat := (l.filter id).length

/-- PASSO 9 success verdict of the UNIVEN browser probe. -/
def univenProbeSuccess : ConnResult :=
  { success := true
    message := "Login UNIVEN realizado com sucesso! Credenciais válidas e funcionando."
    platform := "UNIVEN" }

/-- PASSO 9 invalid-credentials verdict of the UNIVEN browser probe. -/
def univenProbeInvalid : ConnResult :=
  { success := false
    message := "Credenciais inválidas para UNIVEN. Verifique seu usuário e senha."
    platform := "UNIVEN" }

/-- PASSO 9 inconclusive verdict of the UNIVEN browser probe. -/
def univenProbeInconclusive : ConnResult :=
  { success := false
    message := "Não foi possível confirmar o login. A página pode ter mudado ou há problemas de conectividade. Tente fazer login manualmente no site."
    platform := "UNIVEN" }

/-- PASSO 9 of the UNIVEN browser probe: count both indicator sets and pick a
verdict (`successCount > 0 && errorCount === 0` first, then `errorCount > 0`,
else inconclusive). -/
def classifyUnivenProbe (url content title : String) : ConnResult :=
  let successCount := countTrue (univenProbeSuccessIndicators url content title)
  let errorCount := countTrue (univenProbeErrorIndicators url content)
  if 0 < successCount ∧ errorCount = 0 then univenProbeSuccess
  else if 0 < errorCount then univenProbeInvalid
  else univenProbeInconclusive

/-- The success-indicator list of the browser-probe `testOlxConnection`
(Canal Pro). -/
def olxProbeSuccessIndicators (url content title : String) : List Bool :=
  [strContains url "dashboard",
   strContains url "painel",
   strContains url "admin",
   strContains url "portal",
   strContains url "home",
   strContains url "main",
   url != "https://canalpro.grupozap.com/login" && url != "https://canalpro.grupozap.com/",
   strContains (strToLower content) "logout",
   strContains (strToLower content) "sair",
   strContains (strToLower content) "bem-vindo",
   strContains (strToLower content) "dashboard",
   strContains (strToLower content) "painel",
   strContains (strToLower content) "meus anúncios",
   strContains (strToLower content) "olx pro",
   strContains (strToLower content) "canal pro",
   strContains (strToLower title) "dashboard",
   strContains (strToLower title) "painel",
   strContains (strToLower title) "portal",
   strContains (strToLower title) "olx pro"]

/-- The error-indicator list of the browser-probe `testOlxConnection`. -/
def olxProbeErrorIndicators (url content : String) : List Bool :=
  [strContains (strToLower content) "email inválido",
   strContains (strToLower content) "senha incorreta",
   strContains (strToLower content) "credenciais inválidas",
   strContains (strToLower content) "erro de login",
   strContains (strToLower content) "login inválido",
   strContains (strToLower content) "dados incorretos",
   strContains (strToLower content) "acesso negado",
   strContains (strToLower content) "usuário não encontrado",
   strContains (strToLower content) "invalid",
   strContains (strToLower content) "incorrect",
   strContains (strToLower content) "failed",
   strContains (strToLower content) "error",
   url == "https://canalpro.grupozap.com/login",
   url == "https://canalpro.grupozap.com/"]

/-- PASSO 9 success verdict of the Canal Pro browser probe. -/
def olxProbeSuccess : ConnResult :=
  { success := true
    message := "Login OLX Pro (Canal Pro) realizado com sucesso! Credenciais válidas e funcionando."
    platform := "OLX Pro" }

/-- PASSO 9 invalid-credentials verdict of the Canal Pro browser probe. -/
def olxProbeInvalid : ConnResult :=
  { success := false
    message := "Credenciais inválidas para OLX Pro (Canal Pro). Verifique seu email e senha."
    platform := "OLX Pro" }

/-- PASSO 9 inconclusive verdict of the Canal Pro browser probe. -/
def olxProbeInconclusive : ConnResult :=
  { success := false
    message := "Não foi possível confirmar o login no Canal Pro. A página pode ter mudado ou há problemas de conectividade. Tente fazer login manualmente no site."
    platform := "OLX Pro" }

/-- PASSO 9 of the Canal Pro browser probe. -/
def classifyOlxProbe (url content title : String) : ConnResult :=
  let successCount := countTrue (olxProbeSuccessIndicators url content title)
  let errorCount := countTrue (olxProbeErrorIndicators url content)
  if 0 < successCount ∧ errorCount = 0 then olxProbeSuccess
  else if 0 < errorCount then olxProbeInvalid
  else olxProbeInconclusive

/-! ## `getBrowser` launch configuration -/

/-- The options object handed to `puppeteer.launch`. -/
structure LaunchConfig where
  headless : Bool
  args : List String
deriving Repr, DecidableEq

/-- `getBrowser` reads the `headless` and `browserType` settings into local
bindings, then launches with a literal configuration that uses neither. -/
def getBrowserLaunchConfig (settings : List Setting) : LaunchConfig :=
  let headlessSetting := settings.find? (fun s => s.key == "headless")
  let browserTypeSetting := settings.find? (fun s => s.key == "browserType")
  { headless := true
    args := ["--no-sandbox", "--disable-setuid-sandbox", "--disable-dev-shm-usage",
      "--disable-accelerated-2d-canvas", "--no-first-run", "--no-zygote",
      "--single-process", "--disable-gpu", "--disable-web-security",
      "--disable-features=VizDisplayCompositor", "--disable-extensions",
      "--disable-default-apps", "--disable-sync", "--metrics-recording-only",
      "--no-default-browser-check", "--no-experiments", "--hide-scrollbars",
      "--mute-audio", "--disable-background-timer-throttling",
      "--disable-renderer-backgrounding", "--disable-backgrounding-occluded-windows"] }

/-! ## `MemStorage.deleteSystemLogs` -/

/-- A `system_logs` row as stored by `MemStorage` (timestamp as epoch `Nat`;
JS `Date` comparison is numeric epoch comparison). -/
structure MemLog where
  id : Nat
  level : String
  message : String
  timestamp : Nat
deriving Repr, DecidableEq

/-- `MemStorage.deleteSystemLogs`: with no cutoff, clear everything and return
the prior size; with a cutoff, collect the ids of rows with
`timestamp < olderThan`, delete exactly those, and return their count. -/
def deleteSystemLogs (store : List MemLog) (olderThan : Option Nat) :
    List MemLog × Nat :=
  match olderThan with
  | none => ([], store.length)
  | some cutoff =>
    let logsToDelete := store.filter (fun l => l.timestamp < cutoff)
    (store.filter (fun l => !(decide (l.timestamp < cutoff))), logsToDelete.length)

/-! ## Preservation lemmas for the run model -/

theorem applyUpdate_id (a : Automation) (u : AutomationUpdate) :
    (applyUpdate a u).id = a.id := rfl

theorem find?_map_upd (l : List Automation) (id : Nat) (u : AutomationUpdate) :
    (l.map (fun a => if a.id == id then applyUpdate a u else a)).find?
        (fun a => a.id == id)
      = (l.find? (fun a => a.id == id)).map (fun a => applyUpdate a u) := by
  induction l with
  | nil => rfl
  | cons a t ih =>
    simp only [List.map_cons]
    by_cases h : (a.id == id) = true
    · have h2 : ((applyUpdate a u).id == id) = true := by
        rw [applyUpdate_id]; exact h
      simp [List.find?, h2, h]
    · have hf : (a.id == id) = false := by simpa using h
      have hf2 : ((applyUpdate a u).id == id) = false := by
        rw [applyUpdate_id]; exact hf
      simp [List.find?, hf, -List.find?_map] at ih ⊢
      exact ih

@[simp] theorem getAutomation_logA (m : M) (lv s : String) (a : Option Nat)
    (i : Nat) : getAutomation (m.logA lv s a).st i = getAutomation m.st i := rfl

@[simp] theorem getAutomation_logIf (m : M) (b : Bool) (lv s : String)
    (a : Option Nat) (i : Nat) :
    getAutomation (m.logIf b lv s a).st i = getAutomation m.st i := by
  cases b <;> rfl

@[simp] theorem getAutomation_upd_self (m : M) (id : Nat) (u : AutomationUpdate) :
    getAutomation (m.upd id u).st id
      = (getAutomation m.st id).map (fun a => applyUpdate a u) := by
  simpa [M.upd, updateAutomationS, getAutomation] using
    find?_map_upd m.st.automations id u

@[simp] theorem olxCodes_logA (m : M) (lv s : String) (a : Option Nat) :
    (m.logA lv s a).st.olxCodes = m.st.olxCodes := rfl

@[simp] theorem olxCodes_logIf (m : M) (b : Bool) (lv s : String)
    (a : Option Nat) : (m.logIf b lv s a).st.olxCodes = m.st.olxCodes := by
  cases b <;> rfl

@[simp] theorem olxCodes_upd (m : M) (id : Nat) (u : AutomationUpdate) :
    (m.upd id u).st.olxCodes = m.st.olxCodes := rfl

@[simp] theorem settings_logA (m : M) (lv s : String) (a : Option Nat) :
    (m.logA lv s a).st.settings = m.st.settings := rfl

@[simp] theorem settings_logIf (m : M) (b : Bool) (lv s : String)
    (a : Option Nat) : (m.logIf b lv s a).st.settings = m.st.settings := by
  cases b <;> rfl

@[simp] theorem settings_upd (m : M) (id : Nat) (u : AutomationUpdate) :
    (m.upd id u).st.settings = m.st.settings := rfl

@[simp] theorem getOlxCodeByCode_logA (m : M) (lv s : String) (a : Option Nat)
    (c : String) :
    getOlxCodeByCode (m.logA lv s a).st c = getOlxCodeByCode m.st c := rfl

@[simp] theorem getOlxCodeByCode_logIf (m : M) (b : Bool) (lv s : String)
    (a : Option Nat) (c : String) :
    getOlxCodeByCode (m.logIf b lv s a).st c = getOlxCodeByCode m.st c := by
  cases b <;> rfl

@[simp] theorem getOlxCodeByCode_upd (m : M) (id : Nat) (u : AutomationUpdate)
    (c : String) : getOlxCodeByCode (m.upd id u).st c = getOlxCodeByCode m.st c :=
  rfl

@[simp] theorem findSetting_logA (m : M) (lv s : String) (a : Option Nat)
    (k : String) : findSetting (m.logA lv s a).st k = findSetting m.st k := rfl

@[simp] theorem findSetting_upd (m : M) (id : Nat) (u : AutomationUpdate)
    (k : String) : findSetting (m.upd id u).st k = findSetting m.st k := rfl

theorem foldl_photos_eq (n id : Nat) :
    ∀ (l : List Nat) (m : M),
      l.foldl
          (fun m i =>
            m.logA "info"
              ("Downloaded photo " ++ toString (i + 1) ++ "/" ++ toString n)
              (some id)) m
        = ⟨⟨m.st.automations, m.st.olxCodes,
            m.st.logs ++ l.map (fun i =>
              ⟨"info", "Downloaded photo " ++ toString (i + 1) ++ "/" ++ toString n,
               some id⟩),
            m.st.settings⟩,
           m.tr ++ l.map (fun i =>
             .log "info"
               ("Downloaded photo " ++ toString (i + 1) ++ "/" ++ toString n)
               (some id))⟩ := by
  intro l
  induction l with
  | nil => intro m; simp
  | cons a t ih =>
    intro m
    rw [List.foldl_cons, ih]
    simp [M.logA]

@[simp] theorem stepUpdates_nil : stepUpdates [] = [] := rfl

@[simp] theorem progressUpdates_nil : progressUpdates [] = [] := rfl

@[simp] theorem stepUpdates_append (a b : List Event) :
    stepUpdates (a ++ b) = stepUpdates a ++ stepUpdates b := by
  simp [stepUpdates, List.filterMap_append]

@[simp] theorem progressUpdates_append (a b : List Event) :
    progressUpdates (a ++ b) = progressUpdates a ++ progressUpdates b := by
  simp [progressUpdates, List.filterMap_append]

@[simp] theorem stepUpdates_logs_map (lv : String) (msg : Nat → String)
    (aid : Option Nat) (l : List Nat) :
    stepUpdates (l.map (fun i => .log lv (msg i) aid)) = [] := by
  induction l with
  | nil => rfl
  | cons a t ih =>
    simp only [List.map_cons, stepUpdates, List.filterMap_cons] at ih ⊢
    exact ih

@[simp] theorem progressUpdates_logs_map (lv : String) (msg : Nat → String)
    (aid : Option Nat) (l : List Nat) :
    progressUpdates (l.map (fun i => .log lv (msg i) aid)) = [] := by
  induction l with
  | nil => rfl
  | cons a t ih =>
    simp only [List.map_cons, progressUpdates, List.filterMap_cons] at ih ⊢
    exact ih

@[simp] theorem stepUpdates_logA (m : M) (lv s : String) (a : Option Nat) :
    stepUpdates (m.logA lv s a).tr = stepUpdates m.tr := by
  simp [M.logA, stepUpdates, List.filterMap_append]

@[simp] theorem stepUpdates_logIf (m : M) (b : Bool) (lv s : String)
    (a : Option Nat) : stepUpdates (m.logIf b lv s a).tr = stepUpdates m.tr := by
  cases b <;> simp [M.logIf]

@[simp] theorem stepUpdates_upd (m : M) (id : Nat) (u : AutomationUpdate) :
    stepUpdates (m.upd id u).tr
      = stepUpdates m.tr
        ++ (match u.currentStep, u.progress with
            | some s, some p => [(s, p)]
            | _, _ => []) := by
  simp only [M.upd, stepUpdates, List.filterMap_append]
  rcases hc : u.currentStep with _ | s <;> rcases hp : u.progress with _ | p <;>
    simp [List.filterMap, hc, hp]

@[simp] theorem progressUpdates_logA (m : M) (lv s : String) (a : Option Nat) :
    progressUpdates (m.logA lv s a).tr = progressUpdates m.tr := by
  simp [M.logA, progressUpdates, List.filterMap_append]

@[simp] theorem progressUpdates_logIf (m : M) (b : Bool) (lv s : String)
    (a : Option Nat) :
    progressUpdates (m.logIf b lv s a).tr = progressUpdates m.tr := by
  cases b <;> simp [M.logIf]

@[simp] theorem progressUpdates_upd (m : M) (id : Nat) (u : AutomationUpdate) :
    progressUpdates (m.upd id u).tr
      = progressUpdates m.tr
        ++ (match u.progress with
            | some p => [p]
            | none => []) := by
  simp only [M.upd, progressUpdates, List.filterMap_append]
  rcases hp : u.progress with _ | p <;> simp [List.filterMap, hp]

@[simp] theorem automations_downloadPhotosM (m : M) (id : Nat) (pc : String)
    (urls : List String) (env : RunEnv) :
    (downloadPhotosM m id pc urls env).st.automations = m.st.automations := by
  unfold downloadPhotosM
  split
  · rfl
  · split
    · rfl
    · rw [foldl_photos_eq]
      rfl

@[simp] theorem olxCodes_downloadPhotosM (m : M) (id : Nat) (pc : String)
    (urls : List String) (env : RunEnv) :
    (downloadPhotosM m id pc urls env).st.olxCodes = m.st.olxCodes := by
  unfold downloadPhotosM
  split
  · rfl
  · split
    · rfl
    · rw [foldl_photos_eq]
      rfl

@[simp] theorem getAutomation_downloadPhotosM (m : M) (id : Nat) (pc : String)
    (urls : List String) (env : RunEnv) (i : Nat) :
    getAutomation (downloadPhotosM m id pc urls env).st i
      = getAutomation m.st i := by
  simp [getAutomation, automations_downloadPhotosM]

@[simp] theorem getOlxCodeByCode_downloadPhotosM (m : M) (id : Nat)
    (pc : String) (urls : List String) (env : RunEnv) (c : String) :
    getOlxCodeByCode (downloadPhotosM m id pc urls env).st c
      = getOlxCodeByCode m.st c := by
  simp [getOlxCodeByCode, olxCodes_downloadPhotosM]

@[simp] theorem stepUpdates_downloadPhotosM (m : M) (id : Nat) (pc : String)
    (urls : List String) (env : RunEnv) :
    stepUpdates (downloadPhotosM m id pc urls env).tr = stepUpdates m.tr := by
  unfold downloadPhotosM
  split
  · simp
  · split
    · simp
    · rw [foldl_photos_eq]
      simp [M.logA, stepUpdates, List.filterMap]

@[simp] theorem progressUpdates_downloadPhotosM (m : M) (id : Nat) (pc : String)
    (urls : List String) (env : RunEnv) :
    progressUpdates (downloadPhotosM m id pc urls env).tr
      = progressUpdates m.tr := by
  unfold downloadPhotosM
  split
  · simp
  · split
    · simp
    · rw [foldl_photos_eq]
      simp [M.logA, progressUpdates, List.filterMap]

theorem contains_filter_ne (l : List Nat) (id : Nat) :
    (l.filter (fun x => x != id)).contains id = false := by
  induction l with
  | nil => rfl
  | cons a t ih =>
    by_cases h : (a != id) = true
    · simp only [List.filter, h, List.contains_cons]
      simp only [List.contains] at ih
      simp [ih]
      intro hh
      subst hh
      simp at h
    · simp [List.filter, h, ih]

/-- Master lemma for a fully successful run: the job exists, its OLX code row
exists, and no step throws.  The run persists exactly the six step updates in
order, finishes the job as `finalAuto`, never touches the `olx_codes` table,
and leaves the active set without the job id. -/
theorem startAutomation_success_spec (active : List Nat) (st : StorageState)
    (env : RunEnv) (id : Nat) (j : Automation) (c : OlxCode)
    (hact : active.contains id = false)
    (hj : getAutomation st id = some j)
    (hc : getOlxCodeByCode st j.olxCode = some c)
    (he : env.extractFail = none) (hcf : env.createFail = none) :
    getAutomation (startAutomation active st env id).st id
        = some (finalAuto j (extractPropertyData j.propertyCode env.rnd))
      ∧ (startAutomation active st env id).st.olxCodes = st.olxCodes
      ∧ (startAutomation active st env id).active.contains id = false
      ∧ stepUpdates (startAutomation active st env id).trace
          = [("connecting_univen", 10), ("extracting_data", 30),
             ("downloading_photos", 50), ("connecting_olx", 70),
             ("creating_listing", 85), ("finalizing", 100)]
      ∧ progressUpdates (startAutomation active st env id).trace
          = [10, 30, 50, 70, 85, 100, 100] := by
  simp only [startAutomation, runSteps, hact, hj, he, hcf, M.updateProgress,
    getAutomation_logA, getAutomation_logIf, getAutomation_upd_self,
    getAutomation_downloadPhotosM, getOlxCodeByCode_logA, getOlxCodeByCode_logIf,
    getOlxCodeByCode_upd, getOlxCodeByCode_downloadPhotosM, hc,
    Bool.false_eq_true, if_false]
  refine ⟨?_, ?_, ?_, ?_, ?_⟩
  · simp [hj, applyUpdate, finalAuto]
  · simp
  · exact contains_filter_ne _ id
  · simp
  · simp

/-- Whatever the run does, the job row stays present in the store. -/
theorem runSteps_keeps_job (id : Nat) (env : RunEnv) (st : StorageState)
    (j : Automation) (hj : getAutomation st id = some j) :
    (getAutomation (runSteps id env ⟨st, []⟩).1.st id).isSome = true := by
  simp only [runSteps, hj, M.updateProgress, getOlxCodeByCode_logA,
    getOlxCodeByCode_logIf, getOlxCodeByCode_upd,
    getOlxCodeByCode_downloadPhotosM]
  rcases he : env.extractFail with _ | e
  · rcases hc : getOlxCodeByCode st j.olxCode with _ | c
    · simp [hj]
    · rcases hcf : env.createFail with _ | e
      · simp [hj]
      · simp [hj]
  · simp [hj]

/-- Master lemma for a throwing run: the `catch` block persists `failed` with
the thrown message, and the `finally` block removes the id from the active
set. -/
theorem startAutomation_throw_spec (active : List Nat) (st : StorageState)
    (env : RunEnv) (id : Nat) (j : Automation) (msg : String)
    (hact : active.contains id = false)
    (hj : getAutomation st id = some j)
    (hm : (runSteps id env ⟨st, []⟩).2 = some msg) :
    (getAutomation (startAutomation active st env id).st id).map
        (fun a => (a.status, a.errorMessage)) = some ("failed", some msg)
      ∧ (startAutomation active st env id).active.contains id = false := by
  constructor
  · rcases Option.isSome_iff_exists.mp (runSteps_keeps_job id env st j hj)
      with ⟨a, ha⟩
    simp only [startAutomation, hact, Bool.false_eq_true, if_false, hm]
    simp [ha, applyUpdate]
  · simp only [startAutomation, hact, Bool.false_eq_true, if_false]
    exact contains_filter_ne _ id

/-- A run over a store without the job row cannot end with the job completed
(there is no row at all afterwards). -/
theorem startAutomation_no_job_not_completed (active : List Nat)
    (st : StorageState) (env : RunEnv) (id : Nat)
    (hact : active.contains id = false)
    (hj : getAutomation st id = none) :
    (getAutomation (startAutomation active st env id).st id).map
        (fun a => a.status) ≠ some "completed" := by
  intro hcomp
  simp only [startAutomation, runSteps, hact, Bool.false_eq_true, if_false,
    hj] at hcomp
  simp [hj] at hcomp

/-- A throwing run cannot end with the job completed: the catch block leaves
it `failed`. -/
theorem startAutomation_throw_not_completed (active : List Nat)
    (st : StorageState) (env : RunEnv) (id : Nat) (j : Automation)
    (msg : String)
    (hact : active.contains id = false)
    (hj : getAutomation st id = some j)
    (hm : (runSteps id env ⟨st, []⟩).2 = some msg) :
    (getAutomation (startAutomation active st env id).st id).map
        (fun a => a.status) ≠ some "completed" := by
  intro hcomp
  have h2 := (startAutomation_throw_spec active st env id j msg hact hj hm).1
  rcases hout : getAutomation (startAutomation active st env id).st id
    with _ | a
  · rw [hout] at h2
    simp at h2
  · rw [hout] at h2 hcomp
    simp at h2 hcomp
    rw [hcomp] at h2
    exact absurd h2.1 (by decide)

/-- Reordering the two-branch verdict: checking `0 < s ∧ e = 0` first and
`0 < e` second is the same as giving the error count priority. -/
theorem verdict_reorder (s e : Nat) (A B C : ConnResult) :
    (if 0 < s ∧ e = 0 then A else if 0 < e then B else C)
      = (if 0 < e then B else if 0 < s then A else C) := by
  rcases Nat.eq_zero_or_pos e with he | he
  · rcases Nat.eq_zero_or_pos s with hs | hs
    · subst he; simp [hs]
    · subst he; simp [hs]
  · have hne : ¬(0 < s ∧ e = 0) := fun h => absurd h.2 (Nat.pos_iff_ne_zero.mp he)
    simp [hne, he]

/-! ## The claims -/

/-- Claim C1 (corrected): as stated, the claim is false — the response-code
outcomes are not reachable through `testUnivenConnection`; at POST body
`"0!-!ignored"` the function returns the no-active-session failure, not
success. -/
theorem testUnivenConnection_code0_not_success :
    testUnivenConnection
        { launchFails := false, gotoStatus := some 200,
          pageUrl := "https://www.univenweb.com.br/", pageContent := some "",
          postResponseBody := "0!-!ignored" }
      = noSessionResult
    ∧ noSessionResult.success = false :=
  ⟨by decide, rfl⟩

/-- Claim C1 (amended): the response-code classification is a pure function of
the raw response text with exactly the five claimed outcomes, but it is dead
code: `testUnivenConnection` returns before the login POST, and its result
never depends on the POST response body. -/
theorem univen_response_taxonomy_pure_but_unreachable :
    classifyUnivenResponse "0!-!ignored"
        = { success := true,
            message := "Login UNIVEN realizado com sucesso! Credenciais válidas (código 0).",
            platform := "UNIVEN" }
      ∧ classifyUnivenResponse "1!-!bad"
        = { success := false,
            message := "Senha incorreta para UNIVEN. Verifique sua senha e tente novamente.",
            platform := "UNIVEN" }
      ∧ classifyUnivenResponse "3!-!x"
        = { success := false,
            message := "Número de acessos excedeu o contratado no UNIVEN.",
            platform := "UNIVEN" }
      ∧ classifyUnivenResponse ""
        = { success := false,
            message := "Erro no sistema UNIVEN ou credenciais inválidas.",
            platform := "UNIVEN" }
      ∧ classifyUnivenResponse "eval(window.open(...))"
        = { success := true,
            message := "Login UNIVEN realizado com sucesso! Credenciais válidas e sistema retornou redirecionamento.",
            platform := "UNIVEN" }
      ∧ ∀ (env : UnivenProbeEnv) (body : String),
          testUnivenConnection { env with postResponseBody := body }
            = testUnivenConnection env :=
  ⟨by decide, by decide, by decide, by decide, by decide,
   fun env body => by cases env; rfl⟩

/-- Claim C2: while a job id is in the active set, a second `startAutomation`
call is a no-op apart from one warning log — no job update, no step
transitions, active set unchanged. -/
theorem startAutomation_second_call_noop (active : List Nat)
    (st : StorageState) (env : RunEnv) (id : Nat)
    (h : active.contains id = true) :
    startAutomation active st env id
        = ⟨active,
           { st with logs := st.logs
              ++ [⟨"warning", "Automation " ++ toString id ++ " is already running",
                   some id⟩] },
           [.log "warning" ("Automation " ++ toString id ++ " is already running")
             (some id)]⟩
      ∧ stepUpdates (startAutomation active st env id).trace = [] := by
  constructor
  · simp only [startAutomation]
    rw [if_pos h]
    simp [M.logA]
  · simp only [startAutomation]
    rw [if_pos h]
    simp [M.logA, stepUpdates, List.filterMap]

/-- Claim C2 witness: concrete second call on the running job 1. -/
theorem startAutomation_second_call_noop_witness :
    startAutomation [1] wSt wEnv 1
        = ⟨[1],
           { wSt with logs := wSt.logs
              ++ [⟨"warning", "Automation " ++ toString 1 ++ " is already running",
                   some 1⟩] },
           [.log "warning" ("Automation " ++ toString 1 ++ " is already running")
             (some 1)]⟩
      ∧ stepUpdates (startAutomation [1] wSt wEnv 1).trace = [] :=
  startAutomation_second_call_noop [1] wSt wEnv 1 rfl

/-- Claim C3 (corrected): as stated, the claim is false — here is a fully
successful run (status `completed`) after which the broker's one available
code is untouched: still `isUsed = false`, still unbound. -/
theorem publish_success_claims_no_code_cex :
    (getAutomation (startAutomation [] wSt wEnv 1).st 1).map (fun a => a.status)
        = some "completed"
      ∧ (startAutomation [] wSt wEnv 1).st.olxCodes = [wCode]
      ∧ wCode.isUsed = false
      ∧ wCode.currentAutomationId = none :=
  ⟨by decide, by decide, rfl, rfl⟩

/-- Claim C3 (amended): a successful publish step claims no code — it only
looks up the job's own `olxCode` row — so the whole run leaves the `olx_codes`
table unchanged, while the job does finish with status `completed`,
progress 100 and `completedAt` set. -/
theorem publish_success_mutates_no_code (active : List Nat)
    (st : StorageState) (env : RunEnv) (id : Nat) (j : Automation) (c : OlxCode)
    (hact : active.contains id = false)
    (hj : getAutomation st id = some j)
    (hc : getOlxCodeByCode st j.olxCode = some c)
    (he : env.extractFail = none) (hcf : env.createFail = none) :
    (startAutomation active st env id).st.olxCodes = st.olxCodes
      ∧ (getAutomation (startAutomation active st env id).st id).map
          (fun a => (a.status, a.progress, a.completedAt))
        = some ("completed", 100, true) := by
  obtain ⟨h1, h2, _, _, _⟩ :=
    startAutomation_success_spec active st env id j c hact hj hc he hcf
  refine ⟨h2, ?_⟩
  rw [h1]
  rfl

/-- Claim C3 witness: the amended statement at the concrete store. -/
theorem publish_success_mutates_no_code_witness :
    (startAutomation [] wSt wEnv 1).st.olxCodes = wSt.olxCodes
      ∧ (getAutomation (startAutomation [] wSt wEnv 1).st 1).map
          (fun a => (a.status, a.progress, a.completedAt))
        = some ("completed", 100, true) :=
  publish_success_mutates_no_code [] wSt wEnv 1 wJob wCode rfl rfl rfl rfl rfl

/-- Claim C4: both browser-probe verdicts are the claimed count comparison
with failure priority: a positive failure count gives the invalid-credentials
failure; otherwise a positive success count gives success; otherwise (both
zero) the inconclusive failure, whose message recommends manual verification
and is not the invalid-credentials message. -/
theorem probe_verdict_failure_priority (url content title : String) :
    classifyUnivenProbe url content title
        = (if 0 < countTrue (univenProbeErrorIndicators url content) then
            univenProbeInvalid
          else if 0 < countTrue (univenProbeSuccessIndicators url content title)
            then univenProbeSuccess
          else univenProbeInconclusive)
      ∧ classifyOlxProbe url content title
        = (if 0 < countTrue (olxProbeErrorIndicators url content) then
            olxProbeInvalid
          else if 0 < countTrue (olxProbeSuccessIndicators url content title)
            then olxProbeSuccess
          else olxProbeInconclusive) := by
  constructor
  · simpa only [classifyUnivenProbe] using
      verdict_reorder (countTrue (univenProbeSuccessIndicators url content title))
        (countTrue (univenProbeErrorIndicators url content))
        univenProbeSuccess univenProbeInvalid univenProbeInconclusive
  · simpa only [classifyOlxProbe] using
      verdict_reorder (countTrue (olxProbeSuccessIndicators url content title))
        (countTrue (olxProbeErrorIndicators url content))
        olxProbeSuccess olxProbeInvalid olxProbeInconclusive

/-- Claim C5: when a step throws, the catch block persists `failed` with the
exception's message, and the finally block removes the id from the active set;
the removal happens for an arbitrary second environment `env2` as well, i.e.
on every exit path of a run that actually started. -/
theorem startAutomation_failure_terminal (active : List Nat)
    (st : StorageState) (env env2 : RunEnv) (id : Nat) (j : Automation)
    (msg : String)
    (hact : active.contains id = false)
    (hj : getAutomation st id = some j)
    (hm : (runSteps id env ⟨st, []⟩).2 = some msg) :
    (getAutomation (startAutomation active st env id).st id).map
        (fun a => (a.status, a.errorMessage)) = some ("failed", some msg)
      ∧ (startAutomation active st env id).active.contains id = false
      ∧ (startAutomation active st env2 id).active.contains id = false := by
  obtain ⟨h1, h2⟩ := startAutomation_throw_spec active st env id j msg hact hj hm
  refine ⟨h1, h2, ?_⟩
  simp only [startAutomation, hact, Bool.false_eq_true, if_false]
  exact contains_filter_ne _ id

/-- Claim C5 witness: a run whose extraction step throws `boom`. -/
theorem startAutomation_failure_terminal_witness :
    (getAutomation (startAutomation [] wSt wEnvFail 1).st 1).map
        (fun a => (a.status, a.errorMessage)) = some ("failed", some "boom")
      ∧ (startAutomation [] wSt wEnvFail 1).active.contains 1 = false
      ∧ (startAutomation [] wSt wEnv 1).active.contains 1 = false :=
  startAutomation_failure_terminal [] wSt wEnvFail wEnv 1 wJob "boom" rfl rfl rfl

/-- Claim C6: every run that ends with the job completed persisted exactly the
six step updates in the fixed order with no repeats and no skips, and its
persisted progress values are non-decreasing. -/
theorem startAutomation_completed_step_sequence (active : List Nat)
    (st : StorageState) (env : RunEnv) (id : Nat)
    (hact : active.contains id = false)
    (hcomp : (getAutomation (startAutomation active st env id).st id).map
        (fun a => a.status) = some "completed") :
    stepUpdates (startAutomation active st env id).trace
        = [("connecting_univen", 10), ("extracting_data", 30),
           ("downloading_photos", 50), ("connecting_olx", 70),
           ("creating_listing", 85), ("finalizing", 100)]
      ∧ progressUpdates (startAutomation active st env id).trace
        = [10, 30, 50, 70, 85, 100, 100]
      ∧ List.Chain' (· ≤ ·)
          (progressUpdates (startAutomation active st env id).trace) := by
  rcases hj : getAutomation st id with _ | j
  · exact absurd hcomp
      (startAutomation_no_job_not_completed active st env id hact hj)
  · rcases he : env.extractFail with _ | e
    · rcases hc : getOlxCodeByCode st j.olxCode with _ | c
      · exact absurd hcomp
          (startAutomation_throw_not_completed active st env id j
            ("OLX code " ++ j.olxCode ++ " not found") hact hj
            (by simp [runSteps, hj, he, hc, M.updateProgress]))
      · rcases hcf : env.createFail with _ | e2
        · obtain ⟨_, _, _, h4, h5⟩ :=
            startAutomation_success_spec active st env id j c hact hj hc he hcf
          refine ⟨h4, h5, ?_⟩
          rw [h5]
          simp [List.chain'_cons]
        · exact absurd hcomp
            (startAutomation_throw_not_completed active st env id j e2 hact hj
              (by simp [runSteps, hj, he, hc, hcf, M.updateProgress]))
    · exact absurd hcomp
        (startAutomation_throw_not_completed active st env id j e hact hj
          (by simp [runSteps, hj, he]))

/-- Claim C6 witness: the concrete successful run. -/
theorem startAutomation_completed_step_sequence_witness :
    stepUpdates (startAutomation [] wSt wEnv 1).trace
        = [("connecting_univen", 10), ("extracting_data", 30),
           ("downloading_photos", 50), ("connecting_olx", 70),
           ("creating_listing", 85), ("finalizing", 100)]
      ∧ progressUpdates (startAutomation [] wSt wEnv 1).trace
        = [10, 30, 50, 70, 85, 100, 100]
      ∧ List.Chain' (· ≤ ·) (progressUpdates (startAutomation [] wSt wEnv 1).trace) :=
  startAutomation_completed_step_sequence [] wSt wEnv 1 rfl (by decide)

/-- Claim C7 (corrected): as stated, the claim is false — with zero available
codes for broker 1 the run still completes (the publish step never consults
the available-codes filter), no failure and no mutation occur. -/
theorem zero_available_codes_cex :
    getAvailableOlxCodes wStUsed 1 = []
      ∧ (getAutomation (startAutomation [] wStUsed wEnv 1).st 1).map
          (fun a => (a.status, a.errorMessage)) = some ("completed", none)
      ∧ (startAutomation [] wStUsed wEnv 1).st.olxCodes = wStUsed.olxCodes :=
  ⟨rfl, by decide, by decide⟩

/-- Claim C7 (amended): zero available codes for a broker does not fail the
run: the publish step only requires the job's own `olxCode` row to exist, and
with it present the run completes and mutates no code. -/
theorem zero_available_codes_no_failure (active : List Nat)
    (st : StorageState) (env : RunEnv) (id : Nat) (j : Automation) (c : OlxCode)
    (b : Nat)
    (hzero : getAvailableOlxCodes st b = [])
    (hact : active.contains id = false)
    (hj : getAutomation st id = some j)
    (hc : getOlxCodeByCode st j.olxCode = some c)
    (he : env.extractFail = none) (hcf : env.createFail = none) :
    (getAutomation (startAutomation active st env id).st id).map
        (fun a => a.status) = some "completed"
      ∧ (startAutomation active st env id).st.olxCodes = st.olxCodes := by
  obtain ⟨h1, h2, _, _, _⟩ :=
    startAutomation_success_spec active st env id j c hact hj hc he hcf
  refine ⟨?_, h2⟩
  rw [h1]
  rfl

/-- Claim C7 witness: the amended statement at the zero-available store. -/
theorem zero_available_codes_no_failure_witness :
    (getAutomation (startAutomation [] wStUsed wEnv 1).st 1).map
        (fun a => a.status) = some "completed"
      ∧ (startAutomation [] wStUsed wEnv 1).st.olxCodes = wStUsed.olxCodes :=
  zero_available_codes_no_failure [] wStUsed wEnv 1 wJob wUsedCode 1
    rfl rfl rfl rfl rfl rfl

/-- Claim C8 (corrected): as stated, the claim is false — with all four
credential settings absent the run does not fail with a missing-credentials
message; it completes with no error message. -/
theorem missing_credentials_still_completes_cex :
    findSetting wSt "univenUsername" = none
      ∧ findSetting wSt "univenPassword" = none
      ∧ findSetting wSt "olxEmail" = none
      ∧ findSetting wSt "olxPassword" = none
      ∧ (getAutomation (startAutomation [] wSt wEnv 1).st 1).map
          (fun a => (a.status, a.errorMessage)) = some ("completed", none) :=
  ⟨rfl, rfl, rfl, rfl, by decide⟩

/-- Claim C8 (amended): `startAutomation` performs no credential check and no
connectivity probe: with the source and target credentials absent from the
settings store, an otherwise healthy run still completes, and the job's
`errorMessage` is left as it was. -/
theorem startAutomation_ignores_credentials (active : List Nat)
    (st : StorageState) (env : RunEnv) (id : Nat) (j : Automation) (c : OlxCode)
    (hcu : findSetting st "univenUsername" = none)
    (hcp : findSetting st "univenPassword" = none)
    (hoe : findSetting st "olxEmail" = none)
    (hop : findSetting st "olxPassword" = none)
    (hact : active.contains id = false)
    (hj : getAutomation st id = some j)
    (hc : getOlxCodeByCode st j.olxCode = some c)
    (he : env.extractFail = none) (hcf : env.createFail = none) :
    (getAutomation (startAutomation active st env id).st id).map
        (fun a => (a.status, a.errorMessage))
      = some ("completed", j.errorMessage) := by
  obtain ⟨h1, _, _, _, _⟩ :=
    startAutomation_success_spec active st env id j c hact hj hc he hcf
  rw [h1]
  rfl

/-- Claim C8 witness: the amended statement at the concrete store with empty
settings. -/
theorem startAutomation_ignores_credentials_witness :
    (getAutomation (startAutomation [] wSt wEnv 1).st 1).map
        (fun a => (a.status, a.errorMessage))
      = some ("completed", wJob.errorMessage) :=
  startAutomation_ignores_credentials [] wSt wEnv 1 wJob wCode
    rfl rfl rfl rfl rfl rfl rfl rfl rfl

/-- Claim C9: `getBrowser` launches with a configuration independent of the
settings store — `headless` is always `true` and the flag list is fixed, so
the user-visible `headless`/`browserType` toggles have no effect. -/
theorem getBrowser_config_settings_independent :
    (∀ s1 s2 : List Setting, getBrowserLaunchConfig s1 = getBrowserLaunchConfig s2)
      ∧ ∀ s : List Setting, (getBrowserLaunchConfig s).headless = true :=
  ⟨fun _ _ => rfl, fun _ => rfl⟩

/-- Claim C10: with a cutoff, `deleteSystemLogs` keeps exactly the entries
with `timestamp ≥ cutoff` (unchanged, in order) and returns the number of
strictly older entries it removed; with no cutoff it removes everything and
returns the prior total count. -/
theorem deleteSystemLogs_spec :
    (∀ (store : List MemLog) (cutoff : Nat),
        (deleteSystemLogs store (some cutoff)).1
            = store.filter (fun l => decide (cutoff ≤ l.timestamp))
          ∧ (deleteSystemLogs store (some cutoff)).2
            = (store.filter (fun l => decide (l.timestamp < cutoff))).length)
      ∧ ∀ store : List MemLog, deleteSystemLogs store none = ([], store.length) := by
  refine ⟨fun store cutoff => ⟨?_, rfl⟩, fun store => rfl⟩
  simp only [deleteSystemLogs]
  apply List.filter_congr
  intro x _
  by_cases h : x.timestamp < cutoff
  · simp [h, Nat.not_le.mpr h]
  · simp [h, Nat.not_lt.mp h]

end OlxSync
